import Mathlib

/-!
Shallow embedding of the client-side dispatcher of the Triple RPC protocol
(package `triple`, file `triple_client.go`): the `TripleClient` structure,
`NewTripleClient`, `Invoke`, `Request` and `Close`, together with the
`common.ErrorWithAttachment` outcome type they use.

External collaborators that the dispatcher only calls through an interface
(`http2.TripleController.UnaryInvoke`, `tools.ReflectResponse`, the generated
stub returned by `getInvoker`) are modelled as oracle parameters; the
dispatcher's own control flow is translated branch by branch from the source.
Logging calls are elided.  Go panics (failed type assertions, out-of-range
slice indexing) are made explicit through an `Outcome` type.
-/

namespace Triple

/-- Wire status codes used by the client (`internal/codes`). -/
inductive Code where
  | OK
  | InvalidArgument
  | Unimplemented
  | Unavailable
  | DeadlineExceeded
  | Canceled
  | Internal
  | Unknown
  deriving DecidableEq

/-- A Go `error` value as the dispatcher observes it: either a typed status
error built by `status.Errorf(code, msg)` or a plain error. -/
inductive GoError where
  | status (code : Code) (msg : String)
  | plain (msg : String)
  deriving DecidableEq

/-- `common.TripleAttachment`: a string-keyed metadata map, modelled as an
association list; `make(common.TripleAttachment)` is the empty list. -/
abbrev TripleAttachment := List (String × String)

/-- `common.ErrorWithAttachment`: pair of an optional error (`none` is Go's
`nil`) and an attachment map. -/
structure ErrorWithAttachment where
  err : Option GoError
  attachments : TripleAttachment
  deriving DecidableEq

/-- `common.NewErrorWithAttachment`. -/
def NewErrorWithAttachment (e : Option GoError) (a : TripleAttachment) :
    ErrorWithAttachment :=
  ⟨e, a⟩

/-- `ErrorWithAttachment.GetError`. -/
def ErrorWithAttachment.GetError (x : ErrorWithAttachment) : Option GoError :=
  x.err

/-- `ErrorWithAttachment.GetAttachments`. -/
def ErrorWithAttachment.GetAttachments (x : ErrorWithAttachment) :
    TripleAttachment :=
  x.attachments

/-- A value stored under a key of a `context.Context`: either a string (the
only shape the dispatcher's type assertion accepts) or something else. -/
inductive CtxVal where
  | str (s : String)
  | other (tag : Nat)
  deriving DecidableEq

/-- `context.Context`, modelled by its key-value store.  `Value` returns the
stored value for a key, `none` standing for Go's untyped `nil`. -/
structure Context where
  vals : List (String × CtxVal)
  deriving DecidableEq

/-- `ctx.Value(key)`. -/
def Context.Value (c : Context) (k : String) : Option CtxVal :=
  (c.vals.find? (fun p => p.1 == k)).map (fun p => p.2)

/-- A `reflect.Value` argument as `Invoke` inspects it: an `interface\x7b\x7d`
holding a `context.Context`, or an opaque payload value. -/
inductive Value where
  | ctxv (c : Context)
  | payload (tag : Nat)
  deriving DecidableEq

/-- The second result slot of a typed stub call (`res[1]`), distinguished the
way the chain of type tests at lines 92-105 of `triple_client.go` does:
a `common.ErrorWithAttachment`, a non-nil plain error, Go `nil` (or an
invalid `reflect.Value`), or a non-nil value of any other type. -/
inductive Slot1Val where
  | ewa (e : ErrorWithAttachment)
  | errv (e : GoError)
  | nilv
  | otherv (tag : Nat)

/-- A bound method of the typed stub: `method.Call(in)` yields the two-slot
result `(res[0], res[1])`. -/
structure BoundMethod where
  call : List Value → Value × Slot1Val

/-- The typed stub adapter (`stubInvoker`) as a lookup:
`MethodByName(name)` returns `none` exactly when the resulting
`reflect.Value` is zero (`method.IsZero()`). -/
def MethodTable := String → Option BoundMethod

/-- `constant.PBCodecName` (`pkg/common/constant`): name of the
protobuf-compatible codec.  The dispatcher only compares codec names for
equality, so the concrete string is immaterial. -/
def PBCodecName : String := "protobuf"

/-- `constant.InterfaceKey` (`pkg/common/constant`): the context key under
which dynamic-mode calls carry the target interface name. -/
def InterfaceKey : String := "interface"

/-- `tools.ReflectResponse(res[0], reply)` (`internal/tools`, outside the
dispatcher), modelled abstractly: from the source value and the current
contents of the reply target it produces the new contents of the reply
target and an optional copy error. -/
def ReflectResponseFn := Value → Value → Value × Option String

/-- The transport oracle behind `http2.TripleController.UnaryInvoke`: from
context, path and request parameter list it produces the call outcome and
the value (if any) the transport deserializes into the reply target. -/
def TransportFn := Context → String → List Value → ErrorWithAttachment × Option Value

/-- `TripleClient` (lines 41-54): codec name, the stub invoker (`none`
standing for the zero `reflect.Value` left when no stub was built), the
fired-state of the `once sync.Once` field declared for teardown, and a
count of `h2Controller.Destroy()` invocations (the controller itself is
outside the dispatcher; the count records how often its release entry point
is executed). -/
structure TripleClient where
  codecType : String
  stubInvoker : Option MethodTable
  onceDone : Bool
  destroyCount : Nat

/-- `NewTripleClient` (lines 60-78): builds the client; the stub invoker is
set exactly when the configured codec is the protobuf one.  `adapter`
stands for `reflect.ValueOf(getInvoker(impl, newTripleConn(client)))`,
whose construction lives in generated-stub glue outside the dispatcher.
The controller-construction failure path returns before a client exists and
is not modelled. -/
def NewTripleClient (adapter : MethodTable) (codecType : String) : TripleClient :=
  ⟨codecType, if codecType = PBCodecName then some adapter else none, false, 0⟩

/-- `TripleClient.Close` (lines 137-140): logs, then calls
`t.h2Controller.Destroy()` unconditionally; the `once` field is not
consulted. -/
def TripleClient.Close (t : TripleClient) : TripleClient :=
  ⟨t.codecType, t.stubInvoker, t.onceDone, t.destroyCount + 1⟩

/-- Result of running a dispatcher operation that may panic (failed type
assertion or out-of-range index). -/
inductive Outcome (α : Type) where
  | ok (a : α)
  | crash (msg : String)
  deriving DecidableEq

/-- One `UnaryInvoke` transport call: the path and the request parameter
list handed to the controller. -/
structure UnaryCall where
  path : String
  args : List Value
  deriving DecidableEq

/-- What one `Invoke` (or `Request`) produces: the returned
`ErrorWithAttachment`, the final contents of the reply target, and the
transport calls performed. -/
structure InvokeOut where
  result : ErrorWithAttachment
  reply : Value
  requests : List UnaryCall
  deriving DecidableEq

/-- `TripleClient.Request` (lines 126-128): delegates to the controller's
`UnaryInvoke` with the given context, path, argument list and reply
target. -/
def TripleClient.Request (t : TripleClient) (tr : TransportFn) (ctx : Context)
    (path : String) (arg : List Value) (reply : Value) : InvokeOut :=
  let r := tr ctx path arg
  ⟨r.1, r.2.getD reply, [⟨path, arg⟩]⟩

/-- `TripleClient.Invoke` (lines 81-121), translated branch by branch.
In the typed branch the attachment map starts empty, an absent method
returns `Unimplemented`, slot 1 of the stub result is interpreted by the
source's chain of type tests, and `tools.ReflectResponse`'s error is
discarded (`_ =`).  In the dynamic branch the first argument is asserted to
be a `context.Context`, the interface key is asserted to be a string, the
remaining arguments in order become the request parameters, and the call is
delegated to `Request` with path `"/" + interfaceKey + "/" + methodName`. -/
def TripleClient.Invoke (t : TripleClient) (rr : ReflectResponseFn)
    (tr : TransportFn) (methodName : String) (inArgs : List Value)
    (reply : Value) : Outcome InvokeOut :=
  let attachment : TripleAttachment := []
  if t.codecType = PBCodecName then
    match t.stubInvoker with
    | none => Outcome.crash "reflect: call of MethodByName on zero Value"
    | some stub =>
      match stub methodName with
      | none =>
        Outcome.ok ⟨NewErrorWithAttachment
          (some (GoError.status Code.Unimplemented
            ("TripleClient.Invoke: methodName " ++ methodName ++
              " not impl in triple client api."))) attachment, reply, []⟩
      | some method =>
        let res := method.call inArgs
        match res.2 with
        | Slot1Val.ewa errWithAtta =>
          match errWithAtta.GetError with
          | some e =>
            Outcome.ok ⟨NewErrorWithAttachment (some e) attachment, reply, []⟩
          | none =>
            Outcome.ok ⟨NewErrorWithAttachment none errWithAtta.GetAttachments,
              (rr res.1 reply).1, []⟩
        | Slot1Val.errv e =>
          Outcome.ok ⟨NewErrorWithAttachment (some e) attachment, reply, []⟩
        | Slot1Val.nilv =>
          Outcome.ok ⟨NewErrorWithAttachment none attachment,
            (rr res.1 reply).1, []⟩
        | Slot1Val.otherv _ =>
          Outcome.crash "interface conversion: interface is not error"
  else
    match inArgs with
    | [] => Outcome.crash "runtime error: index out of range"
    | v :: rest =>
      match v with
      | Value.ctxv ctx =>
        match ctx.Value InterfaceKey with
        | some (CtxVal.str interfaceKey) =>
          Outcome.ok (t.Request tr ctx ("/" ++ interfaceKey ++ "/" ++ methodName)
            rest reply)
        | _ =>
          Outcome.crash "interface conversion: interface is nil, not string"
      | Value.payload _ =>
        Outcome.crash "interface conversion: interface is not context.Context"

/-- C3: in typed mode (protobuf codec), for every method name absent from
the method table, `Invoke` returns an outcome of kind `Unimplemented`,
performs no transport call, and leaves the reply target unchanged. -/
theorem invoke_unknown_method_unimplemented
    (t : TripleClient) (rr : ReflectResponseFn) (tr : TransportFn)
    (stub : MethodTable) (methodName : String) (inArgs : List Value)
    (reply : Value)
    (hc : t.codecType = PBCodecName) (hs : t.stubInvoker = some stub)
    (hm : stub methodName = none) :
    t.Invoke rr tr methodName inArgs reply
      = Outcome.ok ⟨⟨some (GoError.status Code.Unimplemented
          ("TripleClient.Invoke: methodName " ++ methodName ++
            " not impl in triple client api.")), []⟩, reply, []⟩ := by
  simp [TripleClient.Invoke, hc, hs, hm, NewErrorWithAttachment]

/-- Witness for C3 at a concrete client and method name. -/
theorem invoke_unknown_method_unimplemented_witness :
    TripleClient.Invoke (NewTripleClient (fun _ => none) PBCodecName)
      (fun v _ => (v, none)) (fun _ _ _ => (⟨none, []⟩, none))
      "Foo" [] (Value.payload 0)
      = Outcome.ok ⟨⟨some (GoError.status Code.Unimplemented
          ("TripleClient.Invoke: methodName " ++ "Foo" ++
            " not impl in triple client api.")), []⟩, Value.payload 0, []⟩ :=
  invoke_unknown_method_unimplemented
    (NewTripleClient (fun _ => none) PBCodecName)
    (fun v _ => (v, none)) (fun _ _ _ => (⟨none, []⟩, none))
    (fun _ => none) "Foo" [] (Value.payload 0) rfl rfl rfl

/-- C1 counterexample: in dynamic mode (codec `hessian2`), with a first
argument whose context carries no interface-key value, `Invoke` crashes on
the failed `.(string)` type assertion; it does not return any outcome at
all, in particular not one of kind `InvalidArgument`. -/
theorem invoke_missing_interface_key_cex :
    (TripleClient.Invoke (NewTripleClient (fun _ => none) "hessian2")
        (fun v _ => (v, none)) (fun _ _ _ => (⟨none, []⟩, none))
        "BigUnaryTest" [Value.ctxv ⟨[]⟩, Value.payload 0] (Value.payload 1)
      = Outcome.crash "interface conversion: interface is nil, not string")
    ∧ ∀ out : InvokeOut,
      TripleClient.Invoke (NewTripleClient (fun _ => none) "hessian2")
          (fun v _ => (v, none)) (fun _ _ _ => (⟨none, []⟩, none))
          "BigUnaryTest" [Value.ctxv ⟨[]⟩, Value.payload 0] (Value.payload 1)
        ≠ Outcome.ok out :=
  ⟨rfl, fun _ h => Outcome.noConfusion h⟩

/-- C1 (amended): in dynamic mode, when the first argument's context does
not carry the interface-key value, `Invoke` panics on the failed type
assertion `ctx.Value(constant.InterfaceKey).(string)` instead of returning
an `InvalidArgument` outcome.  The panic happens before `Request` is
reached, so no transport call is made (a crash outcome records no
transport call). -/
theorem invoke_missing_interface_key_panics
    (t : TripleClient) (rr : ReflectResponseFn) (tr : TransportFn)
    (methodName : String) (c : Context) (rest : List Value) (reply : Value)
    (hc : t.codecType ≠ PBCodecName)
    (hkey : c.Value InterfaceKey = none) :
    t.Invoke rr tr methodName (Value.ctxv c :: rest) reply
      = Outcome.crash "interface conversion: interface is nil, not string" := by
  simp [TripleClient.Invoke, hc, hkey]

/-- Witness for the amended C1 at a concrete client and context. -/
theorem invoke_missing_interface_key_panics_witness :
    TripleClient.Invoke (NewTripleClient (fun _ => none) "hessian2")
      (fun v _ => (v, none)) (fun _ _ _ => (⟨none, []⟩, none))
      "BigUnaryTest" [Value.ctxv ⟨[("other", CtxVal.str "x")]⟩, Value.payload 0]
      (Value.payload 1)
      = Outcome.crash "interface conversion: interface is nil, not string" :=
  invoke_missing_interface_key_panics
    (NewTripleClient (fun _ => none) "hessian2")
    (fun v _ => (v, none)) (fun _ _ _ => (⟨none, []⟩, none))
    "BigUnaryTest" ⟨[("other", CtxVal.str "x")]⟩ [Value.payload 0]
    (Value.payload 1) (by decide) rfl

/-- C2: `Close` executes the controller teardown `h2Controller.Destroy()`
unconditionally on every call — two `Close` calls run it twice — and never
consults the `once` guard the client declares for teardown. -/
theorem close_close_destroys_twice (t : TripleClient) :
    t.Close.Close.destroyCount = t.destroyCount + 2
    ∧ t.Close.onceDone = t.onceDone :=
  ⟨rfl, rfl⟩

/-- C4: in dynamic mode, with a first argument carrying a context whose
interface-key value is the string `K`, `Invoke` delegates to `Request`
with path `"/" + K + "/" + methodName`, with the remaining arguments in
their original order as the request parameter list, and with the reply
target passed through unchanged. -/
theorem invoke_dynamic_delegates
    (t : TripleClient) (rr : ReflectResponseFn) (tr : TransportFn)
    (methodName K : String) (c : Context) (rest : List Value) (reply : Value)
    (hc : t.codecType ≠ PBCodecName)
    (hkey : c.Value InterfaceKey = some (CtxVal.str K)) :
    t.Invoke rr tr methodName (Value.ctxv c :: rest) reply
      = Outcome.ok (t.Request tr c ("/" ++ K ++ "/" ++ methodName) rest reply) := by
  simp [TripleClient.Invoke, hc, hkey]

/-- Witness for C4: the spec's dynamic-mode example, producing a transport
call to path `/com.example.IGreeter/BigUnaryTest` with the request as sole
parameter. -/
theorem invoke_dynamic_delegates_witness :
    TripleClient.Invoke (NewTripleClient (fun _ => none) "hessian2")
      (fun v _ => (v, none))
      (fun _ _ _ => (⟨none, [("r", "1")]⟩, some (Value.payload 9)))
      "BigUnaryTest"
      [Value.ctxv ⟨[(InterfaceKey, CtxVal.str "com.example.IGreeter")]⟩,
        Value.payload 5]
      (Value.payload 1)
      = Outcome.ok ⟨⟨none, [("r", "1")]⟩, Value.payload 9,
          [⟨"/com.example.IGreeter/BigUnaryTest", [Value.payload 5]⟩]⟩ :=
  invoke_dynamic_delegates (NewTripleClient (fun _ => none) "hessian2")
    (fun v _ => (v, none))
    (fun _ _ _ => (⟨none, [("r", "1")]⟩, some (Value.payload 9)))
    "BigUnaryTest" "com.example.IGreeter"
    ⟨[(InterfaceKey, CtxVal.str "com.example.IGreeter")]⟩
    [Value.payload 5] (Value.payload 1) (by decide) rfl

/-- C5: in typed mode, when the bound callable's second result slot signals
an error — an `ErrorWithAttachment` with non-nil error, or a plain non-nil
error — `Invoke` returns that error immediately, the reply target is left
completely unchanged, and no transport call is made. -/
theorem invoke_error_leaves_reply_untouched
    (t : TripleClient) (rr : ReflectResponseFn) (tr : TransportFn)
    (stub : MethodTable) (m : BoundMethod) (methodName : String)
    (inArgs : List Value) (reply : Value) (e : GoError)
    (atts : TripleAttachment)
    (hc : t.codecType = PBCodecName) (hs : t.stubInvoker = some stub)
    (hm : stub methodName = some m)
    (hres : (m.call inArgs).2 = Slot1Val.ewa ⟨some e, atts⟩
      ∨ (m.call inArgs).2 = Slot1Val.errv e) :
    t.Invoke rr tr methodName inArgs reply
      = Outcome.ok ⟨⟨some e, []⟩, reply, []⟩ := by
  rcases hres with h | h <;>
    simp [TripleClient.Invoke, hc, hs, hm, h, NewErrorWithAttachment,
      ErrorWithAttachment.GetError]

/-- Witness for C5 at a concrete stub whose method returns an
`ErrorWithAttachment` carrying a non-nil error. -/
theorem invoke_error_leaves_reply_untouched_witness :
    TripleClient.Invoke
      (NewTripleClient
        (fun _ => some ⟨fun _ => (Value.payload 7,
          Slot1Val.ewa ⟨some (GoError.plain "boom"), [("k", "v")]⟩)⟩)
        PBCodecName)
      (fun v _ => (v, none)) (fun _ _ _ => (⟨none, []⟩, none))
      "Foo" [] (Value.payload 0)
      = Outcome.ok ⟨⟨some (GoError.plain "boom"), []⟩, Value.payload 0, []⟩ :=
  invoke_error_leaves_reply_untouched
    (NewTripleClient
      (fun _ => some ⟨fun _ => (Value.payload 7,
        Slot1Val.ewa ⟨some (GoError.plain "boom"), [("k", "v")]⟩)⟩)
      PBCodecName)
    (fun v _ => (v, none)) (fun _ _ _ => (⟨none, []⟩, none))
    (fun _ => some ⟨fun _ => (Value.payload 7,
      Slot1Val.ewa ⟨some (GoError.plain "boom"), [("k", "v")]⟩)⟩)
    ⟨fun _ => (Value.payload 7,
      Slot1Val.ewa ⟨some (GoError.plain "boom"), [("k", "v")]⟩)⟩
    "Foo" [] (Value.payload 0) (GoError.plain "boom") [("k", "v")]
    rfl rfl rfl (Or.inl rfl)

/-- C6: in typed mode, when the second result slot signals no error —
an `ErrorWithAttachment` with nil error, or a nil slot — `Invoke` applies
the reflective copy of result slot 0 to the reply target and returns a
success outcome (nil error) carrying the `ErrorWithAttachment`'s
attachments, or the empty attachment map when slot 1 was not an
`ErrorWithAttachment`. -/
theorem invoke_success_copies_reply
    (t : TripleClient) (rr : ReflectResponseFn) (tr : TransportFn)
    (stub : MethodTable) (m : BoundMethod) (methodName : String)
    (inArgs : List Value) (reply v0 : Value) (atts : TripleAttachment)
    (hc : t.codecType = PBCodecName) (hs : t.stubInvoker = some stub)
    (hm : stub methodName = some m) :
    (m.call inArgs = (v0, Slot1Val.ewa ⟨none, atts⟩) →
      t.Invoke rr tr methodName inArgs reply
        = Outcome.ok ⟨⟨none, atts⟩, (rr v0 reply).1, []⟩)
    ∧ (m.call inArgs = (v0, Slot1Val.nilv) →
      t.Invoke rr tr methodName inArgs reply
        = Outcome.ok ⟨⟨none, []⟩, (rr v0 reply).1, []⟩) := by
  constructor <;> intro h <;>
    simp [TripleClient.Invoke, hc, hs, hm, h, NewErrorWithAttachment,
      ErrorWithAttachment.GetError, ErrorWithAttachment.GetAttachments]

/-- Witness for C6: a successful call whose response attachments are
returned and whose decoded slot-0 value is copied into the reply target. -/
theorem invoke_success_copies_reply_witness :
    TripleClient.Invoke
      (NewTripleClient
        (fun _ => some ⟨fun _ => (Value.payload 7,
          Slot1Val.ewa ⟨none, [("k", "v")]⟩)⟩)
        PBCodecName)
      (fun v _ => (v, none)) (fun _ _ _ => (⟨none, []⟩, none))
      "Foo" [] (Value.payload 0)
      = Outcome.ok ⟨⟨none, [("k", "v")]⟩, Value.payload 7, []⟩ :=
  (invoke_success_copies_reply
    (NewTripleClient
      (fun _ => some ⟨fun _ => (Value.payload 7,
        Slot1Val.ewa ⟨none, [("k", "v")]⟩)⟩)
      PBCodecName)
    (fun v _ => (v, none)) (fun _ _ _ => (⟨none, []⟩, none))
    (fun _ => some ⟨fun _ => (Value.payload 7,
      Slot1Val.ewa ⟨none, [("k", "v")]⟩)⟩)
    ⟨fun _ => (Value.payload 7, Slot1Val.ewa ⟨none, [("k", "v")]⟩)⟩
    "Foo" [] (Value.payload 0) (Value.payload 7) [("k", "v")]
    rfl rfl rfl).1 rfl

/-- C7: in typed mode both slot-1 conventions are accepted: a plain non-nil
error in slot 1 is treated as error-only, and `Invoke` returns that error
paired with an empty attachment map — exactly the outcome of the
`ErrorWithAttachment` acceptance path for the same error. -/
theorem invoke_plain_error_compat
    (t t2 : TripleClient) (rr : ReflectResponseFn) (tr : TransportFn)
    (stub stub2 : MethodTable) (m m2 : BoundMethod) (methodName : String)
    (inArgs : List Value) (reply : Value) (e : GoError)
    (atts : TripleAttachment)
    (hc : t.codecType = PBCodecName) (hs : t.stubInvoker = some stub)
    (hm : stub methodName = some m)
    (hres : (m.call inArgs).2 = Slot1Val.errv e)
    (hc2 : t2.codecType = PBCodecName) (hs2 : t2.stubInvoker = some stub2)
    (hm2 : stub2 methodName = some m2)
    (hres2 : (m2.call inArgs).2 = Slot1Val.ewa ⟨some e, atts⟩) :
    t.Invoke rr tr methodName inArgs reply
      = Outcome.ok ⟨⟨some e, []⟩, reply, []⟩
    ∧ t.Invoke rr tr methodName inArgs reply
      = t2.Invoke rr tr methodName inArgs reply := by
  constructor <;>
    simp [TripleClient.Invoke, hc, hs, hm, hres, hc2, hs2, hm2, hres2,
      NewErrorWithAttachment, ErrorWithAttachment.GetError]

/-- Witness for C7: one stub returning a plain error and one returning an
`ErrorWithAttachment` with the same error produce the same outcome. -/
theorem invoke_plain_error_compat_witness :
    TripleClient.Invoke
      (NewTripleClient
        (fun _ => some ⟨fun _ => (Value.payload 7,
          Slot1Val.errv (GoError.plain "boom"))⟩)
        PBCodecName)
      (fun v _ => (v, none)) (fun _ _ _ => (⟨none, []⟩, none))
      "Foo" [] (Value.payload 0)
      = Outcome.ok ⟨⟨some (GoError.plain "boom"), []⟩, Value.payload 0, []⟩ :=
  (invoke_plain_error_compat
    (NewTripleClient
      (fun _ => some ⟨fun _ => (Value.payload 7,
        Slot1Val.errv (GoError.plain "boom"))⟩)
      PBCodecName)
    (NewTripleClient
      (fun _ => some ⟨fun _ => (Value.payload 7,
        Slot1Val.ewa ⟨some (GoError.plain "boom"), [("a", "b")]⟩)⟩)
      PBCodecName)
    (fun v _ => (v, none)) (fun _ _ _ => (⟨none, []⟩, none))
    (fun _ => some ⟨fun _ => (Value.payload 7,
      Slot1Val.errv (GoError.plain "boom"))⟩)
    (fun _ => some ⟨fun _ => (Value.payload 7,
      Slot1Val.ewa ⟨some (GoError.plain "boom"), [("a", "b")]⟩)⟩)
    ⟨fun _ => (Value.payload 7, Slot1Val.errv (GoError.plain "boom"))⟩
    ⟨fun _ => (Value.payload 7,
      Slot1Val.ewa ⟨some (GoError.plain "boom"), [("a", "b")]⟩)⟩
    "Foo" [] (Value.payload 0) (GoError.plain "boom") [("a", "b")]
    rfl rfl rfl rfl rfl rfl rfl rfl).1

/-- C8: at construction the typed stub adapter is recorded if and only if
the configured codec is the protobuf-compatible one — for any other codec
the client carries no adapter and operates purely in dynamic mode — and the
adapter is never mutated afterwards: `Invoke` and `Request` are pure over
the client state, and `Close`, the only state-changing operation, preserves
the adapter. -/
theorem method_table_iff_pb_and_immutable (adapter : MethodTable)
    (codecType : String) :
    ((NewTripleClient adapter codecType).stubInvoker = some adapter
      ↔ codecType = PBCodecName)
    ∧ ((NewTripleClient adapter codecType).stubInvoker = none
      ↔ codecType ≠ PBCodecName)
    ∧ ∀ tc : TripleClient, tc.Close.stubInvoker = tc.stubInvoker := by
  by_cases hcd : codecType = PBCodecName <;>
    simp [NewTripleClient, TripleClient.Close, hcd]

/-- C9: in typed mode, when slot 1 is an `ErrorWithAttachment` whose error
is non-nil, `Invoke` returns that error paired with the freshly created
empty attachment map — the attachments the `ErrorWithAttachment` carried
are discarded and never delivered to the caller. -/
theorem invoke_error_discards_peer_attachments
    (t : TripleClient) (rr : ReflectResponseFn) (tr : TransportFn)
    (stub : MethodTable) (m : BoundMethod) (methodName : String)
    (inArgs : List Value) (reply : Value) (e : GoError)
    (atts : TripleAttachment)
    (hc : t.codecType = PBCodecName) (hs : t.stubInvoker = some stub)
    (hm : stub methodName = some m)
    (hres : (m.call inArgs).2 = Slot1Val.ewa ⟨some e, atts⟩) :
    t.Invoke rr tr methodName inArgs reply
      = Outcome.ok ⟨⟨some e, []⟩, reply, []⟩ := by
  simp [TripleClient.Invoke, hc, hs, hm, hres, NewErrorWithAttachment,
    ErrorWithAttachment.GetError]

/-- Witness for C9: the `ErrorWithAttachment` carries a non-empty
attachment map, yet the outcome's attachment map is empty. -/
theorem invoke_error_discards_peer_attachments_witness :
    TripleClient.Invoke
      (NewTripleClient
        (fun _ => some ⟨fun _ => (Value.payload 7,
          Slot1Val.ewa ⟨some (GoError.plain "oops"), [("peer", "data")]⟩)⟩)
        PBCodecName)
      (fun v _ => (v, none)) (fun _ _ _ => (⟨none, []⟩, none))
      "Bar" [] (Value.payload 3)
      = Outcome.ok ⟨⟨some (GoError.plain "oops"), []⟩, Value.payload 3, []⟩ :=
  invoke_error_discards_peer_attachments
    (NewTripleClient
      (fun _ => some ⟨fun _ => (Value.payload 7,
        Slot1Val.ewa ⟨some (GoError.plain "oops"), [("peer", "data")]⟩)⟩)
      PBCodecName)
    (fun v _ => (v, none)) (fun _ _ _ => (⟨none, []⟩, none))
    (fun _ => some ⟨fun _ => (Value.payload 7,
      Slot1Val.ewa ⟨some (GoError.plain "oops"), [("peer", "data")]⟩)⟩)
    ⟨fun _ => (Value.payload 7,
      Slot1Val.ewa ⟨some (GoError.plain "oops"), [("peer", "data")]⟩)⟩
    "Bar" [] (Value.payload 3) (GoError.plain "oops") [("peer", "data")]
    rfl rfl rfl rfl

/-- C10: in typed mode on the success path, a failure of the reflective
copy of slot 0 into the reply target is silently discarded: even when
`tools.ReflectResponse` reports an error, `Invoke` still returns a success
outcome (nil error). -/
theorem invoke_copy_error_discarded
    (t : TripleClient) (rr : ReflectResponseFn) (tr : TransportFn)
    (stub : MethodTable) (m : BoundMethod) (methodName : String)
    (inArgs : List Value) (reply : Value) (atts : TripleAttachment)
    (msg : String)
    (hc : t.codecType = PBCodecName) (hs : t.stubInvoker = some stub)
    (hm : stub methodName = some m)
    (hres : (m.call inArgs).2 = Slot1Val.ewa ⟨none, atts⟩
      ∨ (m.call inArgs).2 = Slot1Val.nilv)
    (hfail : (rr (m.call inArgs).1 reply).2 = some msg) :
    ∃ out : InvokeOut, t.Invoke rr tr methodName inArgs reply
      = Outcome.ok out ∧ out.result.GetError = none := by
  rcases hres with h | h
  · refine ⟨⟨⟨none, atts⟩, (rr (m.call inArgs).1 reply).1, []⟩, ?_, rfl⟩
    simp [TripleClient.Invoke, hc, hs, hm, h, NewErrorWithAttachment,
      ErrorWithAttachment.GetError, ErrorWithAttachment.GetAttachments]
  · refine ⟨⟨⟨none, []⟩, (rr (m.call inArgs).1 reply).1, []⟩, ?_, rfl⟩
    simp [TripleClient.Invoke, hc, hs, hm, h, NewErrorWithAttachment,
      ErrorWithAttachment.GetError]

/-- Witness for C10: the reflective copy fails, yet the returned outcome
carries a nil error. -/
theorem invoke_copy_error_discarded_witness :
    ∃ out : InvokeOut,
      TripleClient.Invoke
        (NewTripleClient
          (fun _ => some ⟨fun _ => (Value.payload 7, Slot1Val.nilv)⟩)
          PBCodecName)
        (fun _ r => (r, some "copy failed"))
        (fun _ _ _ => (⟨none, []⟩, none))
        "Foo" [] (Value.payload 0)
        = Outcome.ok out ∧ out.result.GetError = none :=
  invoke_copy_error_discarded
    (NewTripleClient
      (fun _ => some ⟨fun _ => (Value.payload 7, Slot1Val.nilv)⟩)
      PBCodecName)
    (fun _ r => (r, some "copy failed"))
    (fun _ _ _ => (⟨none, []⟩, none))
    (fun _ => some ⟨fun _ => (Value.payload 7, Slot1Val.nilv)⟩)
    ⟨fun _ => (Value.payload 7, Slot1Val.nilv)⟩
    "Foo" [] (Value.payload 0) [] "copy failed"
    rfl rfl rfl (Or.inr rfl) rfl

end Triple
